import Mathlib

/-!
Verification of the FoodNeural client-side search/recommendation
orchestration flow.

The development shallowly embeds the relevant JavaScript of
`src/frontend/src/components/FoodAnalyzer/FoodAnalyzer.jsx` (the food
analyzer orchestrator: `handleSearchWithValue`, `validateImpactData`,
`normalizeImpactData`, `handleClearSearch`, `selectSuggestion`,
`handleSelectRecommendation`) and `src/frontend/src/services/api.js`
(the HTTP client adapter: `getRecommendations` with its AI fallback
retry, `searchFoods`).

JavaScript values are modelled by the inductive `JsValue`; numbers are
rationals (the code never performs arithmetic on them, it only copies
and type-tests them, so exact rationals are a faithful carrier for the
numeric literals appearing in payloads).  Property access on a
non-object yields `undefined`, as in JavaScript for primitive
receivers.  Network effects are modelled by oracles: a record of fetch
outcomes for the orchestrator, and a request-to-response function for
the HTTP adapter; each operation returns its final state together with
the list of network requests it issued.
-/

/-- A JavaScript value: null, undefined, boolean, number (modelled as an
exact rational), string, array, or object (ordered field list). -/
inductive JsValue where
  | vNull : JsValue
  | vUndefined : JsValue
  | vBool : Bool → JsValue
  | vNum : ℚ → JsValue
  | vStr : String → JsValue
  | vArr : List JsValue → JsValue
  | vObj : List (String × JsValue) → JsValue

/-- JavaScript truthiness: `null`, `undefined`, `false`, `0` and `""` are
falsy; every object and array (even empty) is truthy. -/
def truthy : JsValue → Bool
  | .vNull => false
  | .vUndefined => false
  | .vBool b => b
  | .vNum q => decide (q ≠ 0)
  | .vStr s => decide (s ≠ "")
  | .vArr _ => true
  | .vObj _ => true

/-- `typeof v === "object"` (true for objects, arrays and `null`). -/
def isObjectType : JsValue → Bool
  | .vNull => true
  | .vArr _ => true
  | .vObj _ => true
  | _ => false

/-- `typeof v === "number"`. -/
def isNumber : JsValue → Bool
  | .vNum _ => true
  | _ => false

/-- `typeof v === "string"`. -/
def isString : JsValue → Bool
  | .vStr _ => true
  | _ => false

/-- First-match field lookup in an object's field list. -/
def lookupField : List (String × JsValue) → String → JsValue
  | [], _ => .vUndefined
  | (k', v) :: rest, k => if k' = k then v else lookupField rest k

/-- Property access `v.k`: on an object the field's value (or
`undefined` when absent); on anything else `undefined`. -/
def getField (v : JsValue) (k : String) : JsValue :=
  match v with
  | .vObj fs => lookupField fs k
  | _ => .vUndefined

/-- JavaScript `a || b`: `a` when truthy, else `b`. -/
def jsOr (a b : JsValue) : JsValue :=
  if truthy a then a else b

/-- `validateImpactData` from FoodAnalyzer.jsx: reject non-truthy or
non-object data; when `data.breakdown` is truthy require `data.food` a
string and the five breakdown metrics numeric; otherwise (flat shape)
require `data.food` a string and the five metrics numeric at top level. -/
def validateImpactData (data : JsValue) : Bool :=
  if !truthy data || !isObjectType data then
    false
  else if truthy (getField data "breakdown") then
    isString (getField data "food")
      && truthy (getField data "breakdown")
      && isNumber (getField (getField data "breakdown") "carbon")
      && isNumber (getField (getField data "breakdown") "water")
      && isNumber (getField (getField data "breakdown") "energy")
      && isNumber (getField (getField data "breakdown") "waste")
      && isNumber (getField (getField data "breakdown") "deforestation")
  else
    isString (getField data "food")
      && isNumber (getField data "carbon")
      && isNumber (getField data "water")
      && isNumber (getField data "energy")
      && isNumber (getField data "waste")
      && isNumber (getField data "deforestation")

/-- `normalizeImpactData` from FoodAnalyzer.jsx: `null` for falsy input;
data with a truthy `breakdown` is returned unchanged; a flat payload is
rebuilt into the nested shape with `score = data.environmental_score || 5`
and the normalization defaults (empty `ingredients`/`certifications`,
zeroed `nutrition`). -/
def normalizeImpactData (data : JsValue) : Option JsValue :=
  if !truthy data then
    none
  else if truthy (getField data "breakdown") then
    some data
  else
    some (.vObj
      [ ("food", getField data "food"),
        ("score", jsOr (getField data "environmental_score") (.vNum 5)),
        ("breakdown", .vObj
          [ ("carbon", getField data "carbon"),
            ("water", getField data "water"),
            ("energy", getField data "energy"),
            ("waste", getField data "waste"),
            ("deforestation", getField data "deforestation") ]),
        ("impact", getField data "impact"),
        ("ingredients", .vArr []),
        ("certifications", .vArr []),
        ("nutrition", .vObj
          [ ("protein", .vNum 0),
            ("fat", .vNum 0),
            ("carbs", .vNum 0),
            ("fiber", .vNum 0) ]) ])

/-- The flat-shape Beef payload of the spec's worked scenario. -/
def beefFlat : JsValue :=
  .vObj
    [ ("food", .vStr "Beef"),
      ("carbon", .vNum 27),
      ("water", .vNum 15400),
      ("energy", .vNum 42),
      ("waste", .vNum 3.2),
      ("deforestation", .vNum 0.8),
      ("impact", .vStr "High"),
      ("environmental_score", .vNum 8) ]

/-- An axios-style error as the code observes it: an optional `code`
(`"ECONNABORTED"` on timeout), the optional HTTP status of
`error.response`, and the error `message`. -/
structure AxiosErr where
  code : Option String
  status : Option Int
  message : String

/-- Outcome of one HTTP request: the parsed `response.data` on success,
or a rejection. -/
abbrev FetchResult := Except AxiosErr JsValue

/-- Query parameters sent by `getRecommendations` in api.js. -/
structure RecParams where
  use_ai : String
  limit : String
  carbon_weight : String
  water_weight : String
  energy_weight : String
  waste_weight : String
  deforestation_weight : String
deriving DecidableEq

/-- The `params` object built by `getRecommendations`: stringified
`use_ai` and `limit`, with the five fixed weight strings. -/
def recParams (useAI : Bool) (limit : ℕ) : RecParams :=
  { use_ai := toString useAI,
    limit := toString limit,
    carbon_weight := "0.3",
    water_weight := "0.2",
    energy_weight := "0.1",
    waste_weight := "0.1",
    deforestation_weight := "0.3" }

/-- One GET issued to `/recommendations/{food}` with its parameters
and per-request timeout in milliseconds (URI encoding of the food name
is identity-modelled: no claim concerns it). -/
structure RecRequest where
  food : String
  params : RecParams
  timeoutMs : ℕ
deriving DecidableEq

/-- The retry guard of api.js:
`(error.code === "ECONNABORTED" || error.response?.status >= 500)`
(a missing response makes the status comparison false). -/
def retryableErr (e : AxiosErr) : Bool :=
  decide (e.code = some "ECONNABORTED")
    || (match e.status with
        | some s => decide (500 ≤ s)
        | none => false)

/-- `getRecommendations` from api.js: a first GET with the stringified
parameters and a 25000 ms timeout; on a timeout or 5xx failure while
`useAI` is true, exactly one fallback GET with `use_ai := "false"` and a
10000 ms timeout whose outcome is returned as is; any other failure is
rethrown.  Returns the outcome together with the requests issued. -/
def getRecommendations (http : RecRequest → FetchResult) (food : String)
    (useAI : Bool := true) (limit : ℕ := 3) : FetchResult × List RecRequest :=
  let req1 : RecRequest := ⟨food, recParams useAI limit, 25000⟩
  match http req1 with
  | .ok d => (.ok d, [req1])
  | .error e =>
    if retryableErr e && useAI then
      let req2 : RecRequest := ⟨food, { recParams useAI limit with use_ai := "false" }, 10000⟩
      match http req2 with
      | .ok d => (.ok d, [req1, req2])
      | .error e2 => (.error e2, [req1, req2])
    else
      (.error e, [req1])

/-- `searchFoods` from api.js, applied to the outcome of its single GET
(5000 ms budget): an array response is returned as is, a non-array
success or any rejection yields the empty list; the function is total,
so it never throws to its caller. -/
def searchFoods (resp : FetchResult) : List JsValue :=
  match resp with
  | .error _ => []
  | .ok (.vArr xs) => xs
  | .ok _ => []

/-- The analyzer component state owned by FoodAnalyzer.jsx
(`useState` hooks; `recommendations` holds the JavaScript value the
code stores, initially `[]`). -/
structure AnalyzerState where
  query : String
  impactData : Option JsValue
  recommendations : JsValue
  isLoading : Bool
  error : String
  suggestions : List JsValue
  showSuggestions : Bool

/-- The state at component mount. -/
def initialState : AnalyzerState :=
  { query := "",
    impactData := none,
    recommendations := .vArr [],
    isLoading := false,
    error := "",
    suggestions := [],
    showSuggestions := false }

/-- One network request issued by the orchestrator. -/
inductive ApiCall where
  | impactCall : String → ApiCall
  | recCall : String → ApiCall
deriving DecidableEq

/-- Fetch outcomes supplied to one submit: the result of
`getFoodImpact value`, of the `getRecommendations value` joined in
`Promise.all`, and of the `getRecommendations value` re-issued in the
catch path (each already includes the adapter's internal fallback). -/
structure FetchEnv where
  impact : FetchResult
  rec1 : FetchResult
  rec2 : FetchResult

/-- `Promise.all` over the impact and recommendations promises: both
fulfilled gives the pair; otherwise the join rejects with a rejection
reason (the impact one when it failed, else the recommendations one). -/
def promiseAll (a b : FetchResult) : Except AxiosErr (JsValue × JsValue) :=
  match a, b with
  | .ok x, .ok y => .ok (x, y)
  | .error e, _ => .error e
  | _, .error e => .error e

/-- `recommendationsResult.alternatives || []`. -/
def altOf (r : JsValue) : JsValue :=
  jsOr (getField r "alternatives") (.vArr [])

/-- The empty-query validation message of `handleSearchWithValue`. -/
def emptyQueryMsg : String := "Please enter a food name (e.g., Almond Milk, Beef)"

/-- The message of the error thrown when impact data fails validation. -/
def invalidShapeThrowMsg : String := "Invalid impact data format"

/-- The user-visible message for a shape-validation failure. -/
def shapeErrorMsg : String := "Unable to analyze this food item's impact data."

/-- The user-visible generic fetch-failure message. -/
def genericErrorMsg : String := "An error occurred while fetching data. Please try again."

/-- JavaScript `String.prototype.trim()`: strip leading and trailing
whitespace (embedded over the string's character list so that it
evaluates by kernel reduction). -/
def jsTrim (s : String) : String :=
  ⟨((s.data.dropWhile Char.isWhitespace).reverse.dropWhile Char.isWhitespace).reverse⟩

/-- The synchronous prefix of `handleSearchWithValue` run after the
empty-query guard and before the two fetches are dispatched:
`setShowSuggestions(false); setSuggestions([]); setIsLoading(true);
setError(""); setImpactData(null)` (the stored recommendations are not
touched here). -/
def preDispatchState (s : AnalyzerState) : AnalyzerState :=
  { s with
    showSuggestions := false,
    suggestions := [],
    isLoading := true,
    error := "",
    impactData := none }

/-- The catch block of `handleSearchWithValue`: pick the shape-specific
or generic message from the caught message, null the impact, re-issue
`getRecommendations value` and store its alternatives (empty on
failure), then `finally` clears the loading flag. -/
def catchPath (env : FetchEnv) (s : AnalyzerState) (value : String)
    (msg : String) : AnalyzerState × List ApiCall :=
  let s1 := { s with
    error := if msg = invalidShapeThrowMsg then shapeErrorMsg else genericErrorMsg,
    impactData := none }
  match env.rec2 with
  | .ok r =>
    ({ s1 with recommendations := altOf r, isLoading := false },
      [.recCall value])
  | .error _ =>
    ({ s1 with recommendations := .vArr [], isLoading := false },
      [.recCall value])

/-- `handleSearchWithValue` from FoodAnalyzer.jsx: an empty trimmed
value short-circuits with the validation message and no network calls;
otherwise the pre-dispatch clears run, `getFoodImpact` and
`getRecommendations` are dispatched together and joined with
`Promise.all`, a fulfilled join whose impact payload passes validation
stores the normalized impact and the alternatives, and any rejection or
validation failure is handled by the catch path.  Returns the final
state together with the requests issued. -/
def handleSearchWithValue (env : FetchEnv) (s : AnalyzerState)
    (value : String) : AnalyzerState × List ApiCall :=
  if jsTrim value = "" then
    ({ s with error := emptyQueryMsg }, [])
  else
    let s1 := preDispatchState s
    let issued : List ApiCall := [.impactCall value, .recCall value]
    match promiseAll env.impact env.rec1 with
    | .ok (impactResult, recommendationsResult) =>
      if !truthy impactResult || !validateImpactData impactResult then
        let (s2, more) := catchPath env s1 value invalidShapeThrowMsg
        (s2, issued ++ more)
      else
        ({ s1 with
            impactData := normalizeImpactData impactResult,
            recommendations := altOf recommendationsResult,
            isLoading := false },
          issued)
    | .error e =>
      let (s2, more) := catchPath env s1 value e.message
      (s2, issued ++ more)

/-- `handleClearSearch` from FoodAnalyzer.jsx: reset the session
locally (no network calls). -/
def handleClearSearch (s : AnalyzerState) : AnalyzerState :=
  { s with
    query := "",
    impactData := none,
    recommendations := .vArr [],
    error := "",
    suggestions := [],
    showSuggestions := false }

/-- `selectSuggestion` from FoodAnalyzer.jsx: store the suggestion as
the query, dismiss the suggestion list, and submit it immediately. -/
def selectSuggestion (env : FetchEnv) (s : AnalyzerState)
    (suggestion : String) : AnalyzerState × List ApiCall :=
  handleSearchWithValue env
    { s with query := suggestion, suggestions := [], showSuggestions := false }
    suggestion

/-- `handleSelectRecommendation` from FoodAnalyzer.jsx: store the chosen
food as the query and submit it immediately. -/
def handleSelectRecommendation (env : FetchEnv) (s : AnalyzerState)
    (food : String) : AnalyzerState × List ApiCall :=
  handleSearchWithValue env { s with query := food } food

/-- The five required numeric impact metrics. -/
def requiredMetrics : List String :=
  ["carbon", "water", "energy", "waste", "deforestation"]

/-- The `score` field of the normalized payload, when normalization
produced one. -/
def scoreOfNormalized (d : JsValue) : Option JsValue :=
  (normalizeImpactData d).map fun v => getField v "score"

/-- A rejection with no timeout code, as from an HTTP 502 response. -/
def netErr : AxiosErr := ⟨none, some 502, "Request failed with status code 502"⟩

/-- A fetch environment in which every request fails with `netErr`. -/
def envAllFail : FetchEnv := ⟨.error netErr, .error netErr, .error netErr⟩

/-- A flat payload that passes validation and carries
`environmental_score: 0`. -/
def tofuFlatZeroScore : JsValue :=
  .vObj
    [ ("food", .vStr "Tofu"),
      ("carbon", .vNum 2),
      ("water", .vNum 300),
      ("energy", .vNum 4),
      ("waste", .vNum 1),
      ("deforestation", .vNum 0),
      ("impact", .vStr "Low"),
      ("environmental_score", .vNum 0) ]

/-- An environment where the impact fetch rejects (HTTP 502) while both
recommendation fetches succeed with one alternative. -/
def envImpactFail : FetchEnv :=
  ⟨.error netErr,
    .ok (.vObj [("alternatives", .vArr [.vObj [("name", .vStr "Oat Milk")]])]),
    .ok (.vObj [("alternatives", .vArr [.vObj [("name", .vStr "Oat Milk")]])])⟩

/-- `alternatives.length` of the stored recommendations value. -/
def arrLen : JsValue → ℕ
  | .vArr xs => xs.length
  | _ => 0

/-- An environment where the impact fetch succeeds with the Beef payload
while both recommendation fetches fail. -/
def envRecFail : FetchEnv := ⟨.ok beefFlat, .error netErr, .error netErr⟩

/-- An analyzer state holding one alternative from a previous search. -/
def sWithRecs : AnalyzerState :=
  { initialState with recommendations := .vArr [.vStr "Lentils"] }

/-- The five breakdown metrics of `v.breakdown` are all numeric. -/
def numericBreakdown (v : JsValue) : Bool :=
  isNumber (getField (getField v "breakdown") "carbon")
    && isNumber (getField (getField v "breakdown") "water")
    && isNumber (getField (getField v "breakdown") "energy")
    && isNumber (getField (getField v "breakdown") "waste")
    && isNumber (getField (getField v "breakdown") "deforestation")

/-- The stored impact is `null` or an object whose `breakdown` carries
the five metrics as numbers. -/
def impactInvariant : Option JsValue → Bool
  | none => true
  | some v => isObjectType v && numericBreakdown v

/-- A timeout rejection as axios raises it with `code: "ECONNABORTED"`. -/
def timeoutErr : AxiosErr := ⟨some "ECONNABORTED", none, "timeout of 25000ms exceeded"⟩

/-- A recommendations payload with one alternative. -/
def recPayloadEx : JsValue :=
  .vObj [("alternatives", .vArr [.vObj [("name", .vStr "Chicken")]])]

/-- An HTTP behaviour that times out the 25000 ms AI attempt and
fulfills the fallback attempt. -/
def httpAIThenFallback : RecRequest → FetchResult := fun r =>
  if r.timeoutMs = 25000 then .error timeoutErr else .ok recPayloadEx

/-- Unfolding lemma for field lookup on an object literal. -/
theorem getField_cons (k k' : String) (v : JsValue) (fs : List (String × JsValue)) :
    getField (.vObj ((k', v) :: fs)) k = if k' = k then v else getField (.vObj fs) k := by
  simp [getField, lookupField]

/-- Field lookup on the empty object yields `undefined`. -/
theorem getField_nil (k : String) : getField (.vObj []) k = .vUndefined := rfl

/-- Normalization of a truthy payload without a truthy `breakdown`
rebuilds the nested shape from the flat fields. -/
theorem normalize_flat_eq (d : JsValue) (htr : truthy d = true)
    (hbd : truthy (getField d "breakdown") = false) :
    normalizeImpactData d =
      some (.vObj
        [ ("food", getField d "food"),
          ("score", jsOr (getField d "environmental_score") (.vNum 5)),
          ("breakdown", .vObj
            [ ("carbon", getField d "carbon"),
              ("water", getField d "water"),
              ("energy", getField d "energy"),
              ("waste", getField d "waste"),
              ("deforestation", getField d "deforestation") ]),
          ("impact", getField d "impact"),
          ("ingredients", .vArr []),
          ("certifications", .vArr []),
          ("nutrition", .vObj
            [ ("protein", .vNum 0),
              ("fat", .vNum 0),
              ("carbs", .vNum 0),
              ("fiber", .vNum 0) ]) ]) := by
  unfold normalizeImpactData
  rw [htr, hbd]
  simp

/-- Any validated payload is truthy (the validator's first guard). -/
theorem truthy_of_validated (d : JsValue) (hv : validateImpactData d = true) :
    truthy d = true := by
  by_contra hne
  rw [Bool.not_eq_true] at hne
  simp [validateImpactData, hne] at hv

/-- C8: the spec's worked Beef scenario: the flat payload passes
validation and normalizes to the nested shape with
`breakdown = {carbon 27, water 15400, energy 42, waste 3.2,
deforestation 0.8}`, `score = 8`, `impact = "High"`, and the defaults
(empty ingredients and certifications, zeroed nutrition). -/
theorem beefFlat_normalization :
    validateImpactData beefFlat = true ∧
    normalizeImpactData beefFlat =
      some (.vObj
        [ ("food", .vStr "Beef"),
          ("score", .vNum 8),
          ("breakdown", .vObj
            [ ("carbon", .vNum 27),
              ("water", .vNum 15400),
              ("energy", .vNum 42),
              ("waste", .vNum 3.2),
              ("deforestation", .vNum 0.8) ]),
          ("impact", .vStr "High"),
          ("ingredients", .vArr []),
          ("certifications", .vArr []),
          ("nutrition", .vObj
            [ ("protein", .vNum 0),
              ("fat", .vNum 0),
              ("carbs", .vNum 0),
              ("fiber", .vNum 0) ]) ]) :=
  ⟨rfl, rfl⟩

/-- C3 counterexample: the validated flat payload with
`environmental_score: 0` is normalized with `score = 5`, not the present
raw score `0`, because the code defaults with `||` rather than `??`. -/
theorem score_zero_not_passed_through :
    validateImpactData tofuFlatZeroScore = true ∧
    getField tofuFlatZeroScore "environmental_score" = JsValue.vNum 0 ∧
    scoreOfNormalized tofuFlatZeroScore = some (JsValue.vNum 5) ∧
    scoreOfNormalized tofuFlatZeroScore ≠
      some (getField tofuFlatZeroScore "environmental_score") := by
  refine ⟨rfl, rfl, rfl, ?_⟩
  intro h
  rw [show scoreOfNormalized tofuFlatZeroScore = some (JsValue.vNum 5) from rfl] at h
  rw [show getField tofuFlatZeroScore "environmental_score" = JsValue.vNum 0 from rfl] at h
  injection h with h5
  injection h5 with h50
  exact absurd h50 (by norm_num)

/-- C3 amended: for every payload passing validation, a truthy
`breakdown` makes normalization return the payload unchanged (so no
score defaulting happens in the nested shape), and in the flat shape
the normalized score is `environmental_score` when that value is truthy
and `5` otherwise — in particular a present score of `0` becomes `5`. -/
theorem normalizeImpactData_score_policy (d : JsValue)
    (hv : validateImpactData d = true) :
    (truthy (getField d "breakdown") = true → normalizeImpactData d = some d) ∧
    (truthy (getField d "breakdown") = false →
      truthy (getField d "environmental_score") = true →
      scoreOfNormalized d = some (getField d "environmental_score")) ∧
    (truthy (getField d "breakdown") = false →
      truthy (getField d "environmental_score") = false →
      scoreOfNormalized d = some (JsValue.vNum 5)) := by
  have htr : truthy d = true := truthy_of_validated d hv
  refine ⟨fun hbd => ?_, fun hbd hs => ?_, fun hbd hs => ?_⟩
  · unfold normalizeImpactData
    rw [htr, hbd]
    simp
  · unfold scoreOfNormalized
    rw [normalize_flat_eq d htr hbd]
    simp only [Option.map_some']
    simp [getField_cons, jsOr, hs]
  · unfold scoreOfNormalized
    rw [normalize_flat_eq d htr hbd]
    simp only [Option.map_some']
    simp [getField_cons, jsOr, hs]

/-- C3 amended, witness: the Beef flat payload (truthy score 8) keeps
its raw score. -/
theorem normalizeImpactData_score_policy_witness :
    scoreOfNormalized beefFlat = some (JsValue.vNum 8) :=
  (normalizeImpactData_score_policy beefFlat rfl).2.1 rfl rfl

/-- C4: a falsy payload fails validation and normalizes to `null`, and
in whichever shape applies (nested when `breakdown` is truthy, flat
otherwise) a missing or non-numeric required metric makes validation
fail; all the embedded functions are total, so no exception reaches the
caller. -/
theorem validateImpactData_rejects_invalid (d : JsValue) :
    (truthy d = false →
      validateImpactData d = false ∧ normalizeImpactData d = none) ∧
    (∀ f, f ∈ requiredMetrics → truthy (getField d "breakdown") = true →
      isNumber (getField (getField d "breakdown") f) = false →
      validateImpactData d = false) ∧
    (∀ f, f ∈ requiredMetrics → truthy (getField d "breakdown") = false →
      isNumber (getField d f) = false →
      validateImpactData d = false) := by
  refine ⟨fun hf => ⟨?_, ?_⟩, fun f hf hbd hnum => ?_, fun f hf hbd hnum => ?_⟩
  · simp [validateImpactData, hf]
  · simp [normalizeImpactData, hf]
  · simp only [requiredMetrics, List.mem_cons, List.not_mem_nil, or_false] at hf
    rcases hf with rfl | rfl | rfl | rfl | rfl
    all_goals simp [validateImpactData, hbd, hnum]
  · simp only [requiredMetrics, List.mem_cons, List.not_mem_nil, or_false] at hf
    rcases hf with rfl | rfl | rfl | rfl | rfl
    all_goals simp [validateImpactData, hbd, hnum]

/-- C4 witness: the falsy payload `null` fails validation and
normalizes to `null`, and a flat payload with a string `carbon` fails
validation. -/
theorem validateImpactData_rejects_invalid_witness :
    (validateImpactData JsValue.vNull = false ∧
      normalizeImpactData JsValue.vNull = none) ∧
    validateImpactData
      (JsValue.vObj [("food", JsValue.vStr "Beef"), ("carbon", JsValue.vStr "27")]) = false :=
  ⟨(validateImpactData_rejects_invalid JsValue.vNull).1 rfl,
    (validateImpactData_rejects_invalid
      (JsValue.vObj [("food", JsValue.vStr "Beef"), ("carbon", JsValue.vStr "27")])).2.2
      "carbon" (by simp [requiredMetrics]) rfl rfl⟩

/-- C5: a query whose trimmed form is empty short-circuits: the result
state only sets the exact validation message and the request trace is
empty (no impact, recommendations or suggestions call). -/
theorem empty_query_short_circuits (env : FetchEnv) (s : AnalyzerState)
    (value : String) (h : jsTrim value = "") :
    handleSearchWithValue env s value = ({ s with error := emptyQueryMsg }, []) := by
  simp [handleSearchWithValue, h]

/-- C5 witness: submitting three spaces from the initial state. -/
theorem empty_query_short_circuits_witness :
    handleSearchWithValue envAllFail initialState "   " =
      ({ initialState with error := emptyQueryMsg }, []) :=
  empty_query_short_circuits envAllFail initialState "   " (by decide)

/-- C2: when the recommendations fetch succeeds (both the joined fetch
and the catch-path re-issue) with at least one alternative, then for an
impact fetch that rejects with a non-shape message the final state has
`impactData = null`, at least one stored alternative, and the generic
network message; and for an impact payload that fails shape validation
the same partial-failure state carries the shape-specific message. -/
theorem impact_failure_partial_recovery (env : FetchEnv) (s : AnalyzerState)
    (value : String) (r : JsValue)
    (hv : jsTrim value ≠ "")
    (hr1 : env.rec1 = .ok r)
    (hr2 : env.rec2 = .ok r)
    (hlen : 1 ≤ arrLen (altOf r)) :
    (∀ e, env.impact = .error e → e.message ≠ invalidShapeThrowMsg →
      (handleSearchWithValue env s value).1.impactData = none ∧
      1 ≤ arrLen (handleSearchWithValue env s value).1.recommendations ∧
      (handleSearchWithValue env s value).1.error = genericErrorMsg) ∧
    (∀ d, env.impact = .ok d → (truthy d && validateImpactData d) = false →
      (handleSearchWithValue env s value).1.impactData = none ∧
      1 ≤ arrLen (handleSearchWithValue env s value).1.recommendations ∧
      (handleSearchWithValue env s value).1.error = shapeErrorMsg) := by
  constructor
  · intro e hi hm
    have hstate : handleSearchWithValue env s value =
        ({ preDispatchState s with
            error := genericErrorMsg,
            impactData := none,
            recommendations := altOf r,
            isLoading := false },
          [.impactCall value, .recCall value, .recCall value]) := by
      simp only [handleSearchWithValue, hi, hr1, hr2, promiseAll, catchPath,
        if_neg hv, if_neg hm]
      rfl
    rw [hstate]
    exact ⟨rfl, hlen, rfl⟩
  · intro d hi hval
    have hcond : (!truthy d || !validateImpactData d) = true := by
      rw [← Bool.not_and, hval]
      rfl
    have hstate : handleSearchWithValue env s value =
        ({ preDispatchState s with
            error := shapeErrorMsg,
            impactData := none,
            recommendations := altOf r,
            isLoading := false },
          [.impactCall value, .recCall value, .recCall value]) := by
      simp only [handleSearchWithValue, hi, hr1, hr2, promiseAll, catchPath,
        if_neg hv, hcond, if_true, if_pos]
      rfl
    rw [hstate]
    exact ⟨rfl, hlen, rfl⟩

/-- C2 witness: a failed impact fetch beside a one-alternative
recommendation result ends in the partial-failure state with the
generic message. -/
theorem impact_failure_partial_recovery_witness :
    (handleSearchWithValue envImpactFail initialState "Milk").1.impactData = none ∧
    1 ≤ arrLen (handleSearchWithValue envImpactFail initialState "Milk").1.recommendations ∧
    (handleSearchWithValue envImpactFail initialState "Milk").1.error = genericErrorMsg :=
  (impact_failure_partial_recovery envImpactFail initialState "Milk"
      (.vObj [("alternatives", .vArr [.vObj [("name", .vStr "Oat Milk")]])])
      (by decide) rfl rfl (by decide)).1 netErr rfl (by decide)

/-- C1 counterexample: with a valid impact payload and both
recommendation attempts failing, the submit ends with the generic
network error displayed and the successfully fetched impact discarded
(`impactData = null`), so the recommendation failure is not swallowed. -/
theorem rec_failure_not_swallowed :
    (handleSearchWithValue envRecFail initialState "Beef").1.error = genericErrorMsg ∧
    (handleSearchWithValue envRecFail initialState "Beef").1.impactData = none ∧
    genericErrorMsg ≠ "" := by
  exact ⟨rfl, rfl, by decide⟩

/-- C1 amended: when the impact fetch succeeds with a valid payload but
the recommendations fetch fails (fallback included) and so does its
re-issue, the rejection of the joined `Promise.all` reaches the catch
path: the generic network message is set, the fetched impact is
discarded, and the alternatives become empty. -/
theorem rec_failure_rejects_join (env : FetchEnv) (s : AnalyzerState)
    (value : String) (d : JsValue) (e1 e2 : AxiosErr)
    (hv : jsTrim value ≠ "")
    (hi : env.impact = .ok d)
    (_hval : validateImpactData d = true)
    (hr1 : env.rec1 = .error e1)
    (hm : e1.message ≠ invalidShapeThrowMsg)
    (hr2 : env.rec2 = .error e2) :
    handleSearchWithValue env s value =
      ({ preDispatchState s with
          error := genericErrorMsg,
          impactData := none,
          recommendations := .vArr [],
          isLoading := false },
        [.impactCall value, .recCall value, .recCall value]) := by
  simp only [handleSearchWithValue, hi, hr1, hr2, promiseAll, catchPath,
    if_neg hv, if_neg hm]
  rfl

/-- C1 amended, witness: the Beef submit against `envRecFail`. -/
theorem rec_failure_rejects_join_witness :
    handleSearchWithValue envRecFail initialState "Beef" =
      ({ preDispatchState initialState with
          error := genericErrorMsg,
          impactData := none,
          recommendations := .vArr [],
          isLoading := false },
        [.impactCall "Beef", .recCall "Beef", .recCall "Beef"]) :=
  rec_failure_rejects_join envRecFail initialState "Beef" beefFlat netErr netErr
    (by decide) rfl rfl rfl (by decide) rfl

/-- C7 counterexample: starting from a state holding one alternative,
the pre-dispatch phase of a submit clears the suggestions, the prior
impact and the prior error, but the prior alternatives survive
unchanged (and are non-empty), so they are not cleared before the
fetches are dispatched. -/
theorem pre_dispatch_keeps_prior_alternatives :
    (preDispatchState sWithRecs).suggestions = [] ∧
    (preDispatchState sWithRecs).impactData = none ∧
    (preDispatchState sWithRecs).error = "" ∧
    (preDispatchState sWithRecs).recommendations = JsValue.vArr [JsValue.vStr "Lentils"] ∧
    JsValue.vArr [JsValue.vStr "Lentils"] ≠ JsValue.vArr [] := by
  refine ⟨rfl, rfl, rfl, rfl, ?_⟩
  intro h
  injection h with h1
  exact List.noConfusion h1

/-- C7 amended: on a non-empty submit the pre-dispatch phase clears the
suggestions, the prior impact and the prior error while keeping the
prior alternatives, and both `getFoodImpact` and `getRecommendations`
are dispatched and joined (`Promise.all`): whatever the outcomes, the
issued trace starts with the impact and the recommendations request. -/
theorem submit_clears_and_dispatches (env : FetchEnv) (s : AnalyzerState)
    (value : String) (hv : jsTrim value ≠ "") :
    (preDispatchState s).suggestions = [] ∧
    (preDispatchState s).showSuggestions = false ∧
    (preDispatchState s).impactData = none ∧
    (preDispatchState s).error = "" ∧
    (preDispatchState s).recommendations = s.recommendations ∧
    (handleSearchWithValue env s value).2.take 2 =
      [ApiCall.impactCall value, ApiCall.recCall value] := by
  refine ⟨rfl, rfl, rfl, rfl, rfl, ?_⟩
  unfold handleSearchWithValue
  rw [if_neg hv]
  rcases hi : env.impact with ⟨e⟩ | ⟨d⟩ <;>
    rcases h1 : env.rec1 with ⟨e1⟩ | ⟨r1⟩ <;>
    rcases h2 : env.rec2 with ⟨e2⟩ | ⟨r2⟩ <;>
    simp only [promiseAll, catchPath, h2] <;>
    first
      | rfl
      | (split <;> rfl)

/-- C7 amended, witness: the Beef submit against the all-failing
environment still issues both requests first. -/
theorem submit_clears_and_dispatches_witness :
    (preDispatchState sWithRecs).recommendations = sWithRecs.recommendations ∧
    (handleSearchWithValue envAllFail sWithRecs "Beef").2.take 2 =
      [ApiCall.impactCall "Beef", ApiCall.recCall "Beef"] :=
  ⟨(submit_clears_and_dispatches envAllFail sWithRecs "Beef" (by decide)).2.2.2.2.1,
    (submit_clears_and_dispatches envAllFail sWithRecs "Beef" (by decide)).2.2.2.2.2⟩

/-- A payload passing validation normalizes (when it normalizes at all)
to a value satisfying the impact invariant. -/
theorem validated_invariant (d : JsValue) (hv : validateImpactData d = true) :
    impactInvariant (normalizeImpactData d) = true := by
  have htr : truthy d = true := truthy_of_validated d hv
  have hobj : isObjectType d = true := by
    by_contra h
    rw [Bool.not_eq_true] at h
    simp [validateImpactData, htr, h] at hv
  by_cases hbd : truthy (getField d "breakdown") = true
  · have hn : normalizeImpactData d = some d := by
      unfold normalizeImpactData
      rw [htr, hbd]
      simp
    rw [hn]
    unfold validateImpactData at hv
    rw [htr, hobj, hbd] at hv
    simp at hv
    simp [impactInvariant, numericBreakdown, hobj]
    tauto
  · have hbd' : truthy (getField d "breakdown") = false := by
      rw [Bool.not_eq_true] at hbd
      exact hbd
    rw [normalize_flat_eq d htr hbd']
    unfold validateImpactData at hv
    rw [htr, hobj, hbd'] at hv
    simp at hv
    simp [impactInvariant, numericBreakdown, getField_cons]
    tauto

/-- C10: every orchestrator operation — submit, suggestion select,
recommendation select, clear — preserves the invariant that the stored
impact is `null` or a normalized record whose `breakdown` has the five
metrics present and numeric. -/
theorem impact_state_invariant (env : FetchEnv) (s : AnalyzerState)
    (value sug food : String)
    (h : impactInvariant s.impactData = true) :
    impactInvariant (handleSearchWithValue env s value).1.impactData = true ∧
    impactInvariant (selectSuggestion env s sug).1.impactData = true ∧
    impactInvariant (handleSelectRecommendation env s food).1.impactData = true ∧
    impactInvariant (handleClearSearch s).impactData = true := by
  have key : ∀ (s' : AnalyzerState) (v : String),
      impactInvariant s'.impactData = true →
      impactInvariant (handleSearchWithValue env s' v).1.impactData = true := by
    intro s' v h'
    unfold handleSearchWithValue
    by_cases hv : jsTrim v = ""
    · rw [if_pos hv]
      exact h'
    · rw [if_neg hv]
      rcases hi : env.impact with ⟨e⟩ | ⟨d⟩
      · rcases h1 : env.rec1 with ⟨e1⟩ | ⟨r1⟩ <;>
          rcases h2 : env.rec2 with ⟨e2⟩ | ⟨r2⟩ <;>
          simp [promiseAll, catchPath, h2, impactInvariant]
      · rcases h1 : env.rec1 with ⟨e1⟩ | ⟨r1⟩
        · rcases h2 : env.rec2 with ⟨e2⟩ | ⟨r2⟩ <;>
            simp [promiseAll, catchPath, h2, impactInvariant]
        · simp only [promiseAll]
          split
          · rcases h2 : env.rec2 with ⟨e2⟩ | ⟨r2⟩ <;>
              simp [catchPath, h2, impactInvariant]
          · rename_i hc
            rw [Bool.not_eq_true] at hc
            have hval : validateImpactData d = true := by
              rcases Bool.or_eq_false_iff.mp hc with ⟨-, hb⟩
              simpa using hb
            exact validated_invariant d hval
  refine ⟨key s value h, key _ sug h, key _ food h, rfl⟩

/-- C10 witness: the invariant holds across all four operations from
the initial state against the all-failing environment. -/
theorem impact_state_invariant_witness :
    impactInvariant (handleSearchWithValue envAllFail initialState "Beef").1.impactData = true ∧
    impactInvariant (selectSuggestion envAllFail initialState "Oats").1.impactData = true ∧
    impactInvariant (handleSelectRecommendation envAllFail initialState "Tofu").1.impactData = true ∧
    impactInvariant (handleClearSearch initialState).impactData = true :=
  impact_state_invariant envAllFail initialState "Beef" "Oats" "Tofu" rfl

/-- C6: behaviour of `getRecommendations` over any HTTP behaviour: a
fulfilled first attempt is returned with no retry; a timeout/5xx
failure of the AI attempt triggers exactly one fallback request with
`use_ai = "false"` and a 10000 ms timeout whose outcome (success or
failure) is returned as is; a non-retryable failure propagates with no
retry; and with `useAI = false` no retry happens on any failure. -/
theorem getRecommendations_retry_policy (http : RecRequest → FetchResult)
    (food : String) :
    (∀ d, http ⟨food, recParams true 3, 25000⟩ = .ok d →
      getRecommendations http food =
        (.ok d, [⟨food, recParams true 3, 25000⟩])) ∧
    (∀ e, http ⟨food, recParams true 3, 25000⟩ = .error e →
      retryableErr e = true →
      getRecommendations http food =
        (http ⟨food, { recParams true 3 with use_ai := "false" }, 10000⟩,
          [⟨food, recParams true 3, 25000⟩,
            ⟨food, { recParams true 3 with use_ai := "false" }, 10000⟩])) ∧
    (∀ e, http ⟨food, recParams true 3, 25000⟩ = .error e →
      retryableErr e = false →
      getRecommendations http food =
        (.error e, [⟨food, recParams true 3, 25000⟩])) ∧
    (∀ e, http ⟨food, recParams false 3, 25000⟩ = .error e →
      getRecommendations http food false =
        (.error e, [⟨food, recParams false 3, 25000⟩])) := by
  refine ⟨fun d hd => ?_, fun e he hr => ?_, fun e he hr => ?_, fun e he => ?_⟩
  · simp only [getRecommendations, hd]
  · simp only [getRecommendations, he, hr, Bool.and_self, if_true, ite_true]
    rcases hf : http ⟨food, { recParams true 3 with use_ai := "false" }, 10000⟩ with ⟨e2⟩ | ⟨d2⟩ <;>
      simp [hf]
  · simp only [getRecommendations, he, hr, Bool.false_and, if_false, ite_false]
    rfl
  · simp only [getRecommendations, he, Bool.and_false, if_false, ite_false]
    rfl

/-- C6 witness: against `httpAIThenFallback`, the AI attempt times out,
the single fallback succeeds, and its payload is returned with the
two-request trace. -/
theorem getRecommendations_retry_policy_witness :
    getRecommendations httpAIThenFallback "Beef" =
      (.ok recPayloadEx,
        [⟨"Beef", recParams true 3, 25000⟩,
          ⟨"Beef", { recParams true 3 with use_ai := "false" }, 10000⟩]) :=
  (getRecommendations_retry_policy httpAIThenFallback "Beef").2.1 timeoutErr rfl rfl

/-- C9: `searchFoods` never throws: every rejected request (transport
failure, timeout, error response) yields the empty suggestion list. -/
theorem searchFoods_failure_yields_empty (e : AxiosErr) :
    searchFoods (.error e) = [] := rfl

/-- C9 witness: a concrete rejected search yields the empty list. -/
theorem searchFoods_failure_yields_empty_witness :
    searchFoods (.error netErr) = [] :=
  searchFoods_failure_yields_empty netErr
